import Mathlib

/-!
Verification of the climate-analysis computation layer.

This file gives a shallow embedding, in Lean 4, of the numeric core of the
repository (src/climate_metrics.py, src/insurance_utils.py,
src/rainfall_analysis.py, src/climate_data_analysis.py) and proves or refutes
the frozen claims about it.

Modelling conventions:
- 64-bit floats are modelled by the rationals; all the claims under study are
  order/arithmetic facts that are rounding-independent.
- A pandas DataFrame of monthly rainfall is modelled by a list of rows.  Where
  only the value column matters the model is a plain list of rationals; where
  the calendar month of each row matters the model is a list of
  (month, value) pairs; for the frame-mutation claim the model is a record
  that also carries the optional season column.
- Python exceptions are modelled with the Except monad; numpy's IndexError on
  an empty percentile, Python's ZeroDivisionError, and Python's NameError are
  the three errors the embedded code can raise.
- pandas reductions (mean, max, min, std) return NaN on empty input without
  raising; NaN results are modelled as Option.none.
-/

/-- Errors raised by the embedded Python code.  emptyTake is numpy's
IndexError from np.percentile on an empty array; zeroDiv is a
ZeroDivisionError; nameError carries the unresolved identifier. -/
inductive PyErr : Type
  | emptyTake : PyErr
  | zeroDiv : PyErr
  | nameError : String → PyErr
  deriving DecidableEq, Repr

/-- pandas Series.mean: NaN (none) on an empty series, else the arithmetic
mean. -/
def pandasMean (l : List ℚ) : Option ℚ :=
  if l.isEmpty then none else some (l.sum / l.length)

/-- numpy's linear interpolation between order statistics: given the sorted
data s and the fractional index h, return s[floor h] + (h - floor h) *
(s[ceil h] - s[floor h]).  Out-of-range accesses cannot happen at the call
sites (guarded by the emptiness check in npPercentile). -/
def interpolate (s : List ℚ) (h : ℚ) : ℚ :=
  s.getD (Int.toNat ⌊h⌋) 0 + (h - (⌊h⌋ : ℚ)) * (s.getD (Int.toNat ⌈h⌉) 0 - s.getD (Int.toNat ⌊h⌋) 0)

/-- np.percentile with the default linear method, on nonempty data: sort the
values and interpolate at the fractional index p/100 * (n-1). -/
def percentile (l : List ℚ) (p : ℚ) : ℚ :=
  interpolate (l.insertionSort (· ≤ ·)) (p / 100 * ((l.length : ℚ) - 1))

/-- np.percentile including its behaviour on empty input: numpy raises
IndexError (cannot do a non-empty take from an empty axes). -/
def npPercentile (l : List ℚ) (p : ℚ) : Except PyErr ℚ :=
  if l.isEmpty then Except.error PyErr.emptyTake else Except.ok (percentile l p)

/-! ## Insurance analytics: trigger levels (src/insurance_utils.py lines 5-14) -/

/-- The per-month trigger dictionary built by calculate_trigger_levels with its
default percentile list [10, 25, 50, 75, 90]. -/
structure Triggers : Type where
  p10 : ℚ
  p25 : ℚ
  p50 : ℚ
  p75 : ℚ
  p90 : ℚ
  deriving DecidableEq, Repr

/-- rainfall_data[rainfall_data.index.month == month]: the rainfall values of
the rows that fall in the given calendar month, in series order. -/
def monthData (data : List (ℕ × ℚ)) (m : ℕ) : List ℚ :=
  (data.filter (fun r => r.1 == m)).map (fun r => r.2)

/-- The inner loop of calculate_trigger_levels for one month: one
np.percentile call per requested percentile; the first empty-input failure
propagates. -/
def computeTriggers (l : List ℚ) : Except PyErr Triggers := do
  let a ← npPercentile l 10
  let b ← npPercentile l 25
  let c ← npPercentile l 50
  let d ← npPercentile l 75
  let e ← npPercentile l 90
  pure ⟨a, b, c, d, e⟩

/-- calculate_trigger_levels (src/insurance_utils.py lines 5-14): for each
calendar month 1..12 compute the percentile triggers of that month's
historical values.  An np.percentile failure on a month with no observations
propagates out of the loop, so the whole call raises. -/
def calculate_trigger_levels (data : List (ℕ × ℚ)) : Except PyErr (List (ℕ × Triggers)) :=
  (List.range' 1 12).mapM (fun m => (computeTriggers (monthData data m)).map (fun t => (m, t)))

/-! ## Insurance analytics: payout simulation (src/insurance_utils.py lines 61-79) -/

/-- The payout_structure dictionary passed to simulate_payouts. -/
structure PayoutStructure : Type where
  severe : ℚ
  moderate : ℚ
  mild : ℚ
  deriving DecidableEq, Repr

/-- simulate_payouts (src/insurance_utils.py lines 61-79): walk the rows in
order; for each row look up the triggers of the row's calendar month and
append the tiered payout.  trigger_levels is modelled as a total map from
months to trigger dictionaries (the Python dict lookup, which every caller
populates for all months 1..12). -/
def simulate_payouts : List (ℕ × ℚ) → (ℕ → Triggers) → PayoutStructure → List ℚ
  | [], _, _ => []
  | r :: rest, tl, ps =>
      (let t := tl r.1
       if r.2 ≤ t.p10 then ps.severe
       else if r.2 ≤ t.p25 then ps.moderate
       else if r.2 ≤ t.p50 then ps.mild
       else 0) :: simulate_payouts rest tl ps

/-- The per-observation payout rule exactly as the specification words it:
severe if the value is at most that month's p10 trigger, else moderate if at
most p25, else mild if at most p50, else zero. -/
def specPayoutRule (t : Triggers) (ps : PayoutStructure) (x : ℚ) : ℚ :=
  if x ≤ t.p10 then ps.severe
  else if x ≤ t.p25 then ps.moderate
  else if x ≤ t.p50 then ps.mild
  else 0

theorem simulate_payouts_eq_map (data : List (ℕ × ℚ)) (tl : ℕ → Triggers) (ps : PayoutStructure) :
    simulate_payouts data tl ps = data.map (fun r => specPayoutRule (tl r.1) ps r.2) := by
  induction data with
  | nil => rfl
  | cons r rest ih => simp [simulate_payouts, specPayoutRule, ih]

/-! ## Climate metrics: drought risk (src/climate_metrics.py lines 59-81) -/

/-- drought_threshold = 0.6 * monthly mean (src/climate_metrics.py lines
61-62); the mean is pandas Series.mean, exact on nonempty input. -/
def droughtThreshold (l : List ℚ) : ℚ :=
  (l.sum / l.length) * (3 / 5)

/-- The boolean series value < drought_threshold driving the scan. -/
def dryFlags (l : List ℚ) : List Bool :=
  l.map (fun x => decide (x < droughtThreshold l))

/-- The scan loop of calculate_drought_risk (src/climate_metrics.py lines
64-75), carrying consecutive_dry, max_consecutive and the dry_spells list.
On a below-threshold month the run length grows; otherwise max_consecutive
absorbs the finished run, a nonzero run is appended to dry_spells, and the
run length resets.  Nothing is flushed after the loop. -/
def droughtScan : List Bool → ℕ → ℕ → List ℕ → ℕ × List ℕ
  | [], _, m, sp => (m, sp)
  | b :: t, c, m, sp =>
      if b then droughtScan t (c + 1) m sp
      else droughtScan t 0 (max m c) (if 0 < c then sp ++ [c] else sp)

/-- The local dry_spells list of calculate_drought_risk after the scan. -/
def dry_spells (l : List ℚ) : List ℕ :=
  (droughtScan (dryFlags l) 0 0 []).2

/-- The dictionary returned by calculate_drought_risk. -/
structure DroughtRisk : Type where
  max_consecutive_dry : ℕ
  avg_dry_spell : ℚ
  dry_spell_frequency : ℚ
  deriving DecidableEq, Repr

/-- calculate_drought_risk (src/climate_metrics.py lines 59-81).  On an empty
series the final division len(dry_spells) / len(rainfall_data) raises
ZeroDivisionError; otherwise the three indicators are returned, with
avg_dry_spell falling back to 0 when no spell was recorded. -/
def calculate_drought_risk (l : List ℚ) : Except PyErr DroughtRisk :=
  if l.length = 0 then Except.error PyErr.zeroDiv
  else
    Except.ok
      { max_consecutive_dry := (droughtScan (dryFlags l) 0 0 []).1
        avg_dry_spell :=
          if dry_spells l = [] then 0
          else ((dry_spells l).map (fun k => (k : ℚ))).sum / (dry_spells l).length
        dry_spell_frequency := ((dry_spells l).length : ℚ) / l.length * 12 }

/-- Specification-level characterisation of the recorded dry spells: split the
boolean series at the non-dry months; the chunks are the maximal
below-threshold runs, the last chunk is the run still in progress at series
end; drop it, take the chunk lengths, and keep the nonzero ones. -/
def completedRuns (l : List Bool) : List ℕ :=
  (((l.splitOn false).dropLast).map List.length).filter (fun k => decide (0 < k))

/-- Operational twin of the spell accumulation used to relate the scan to
completedRuns: c is the length of the run in progress. -/
def specGo : ℕ → List Bool → List ℕ
  | _, [] => []
  | c, true :: t => specGo (c + 1) t
  | c, false :: t => if 0 < c then c :: specGo 0 t else specGo 0 t

theorem droughtScan_spells (l : List Bool) :
    ∀ (c m : ℕ) (sp : List ℕ), (droughtScan l c m sp).2 = sp ++ specGo c l := by
  induction l with
  | nil => intro c m sp; simp [droughtScan, specGo]
  | cons b t ih =>
      intro c m sp
      cases b with
      | true => simpa [droughtScan, specGo] using ih (c + 1) m sp
      | false =>
          by_cases hc : 0 < c
          · simp [droughtScan, specGo, hc, ih]
          · simp [droughtScan, specGo, hc, ih]

theorem splitOn_false_eq (l : List Bool) :
    l.splitOn false = l.splitOnP (fun b => b == false) := rfl

theorem specGo_splitOn (l : List Bool) :
    ∀ c : ℕ,
      specGo c l =
        ((((l.splitOn false).modifyHead (fun s => List.replicate c true ++ s)).dropLast).map
              List.length).filter (fun k => decide (0 < k)) := by
  induction l with
  | nil => intro c; simp [specGo, splitOn_false_eq]
  | cons b t ih =>
      intro c
      cases b with
      | true =>
          rw [specGo, ih (c + 1), splitOn_false_eq, splitOn_false_eq, List.splitOnP_cons]
          rw [if_neg (by decide : ¬ ((true == false) = true))]
          rw [List.modifyHead_modifyHead]
          have hfun : ((fun s => List.replicate c true ++ s) ∘ List.cons true) =
              (fun s => List.replicate (c + 1) true ++ s) := by
            funext s
            simp only [Function.comp]
            rw [List.replicate_succ', List.append_assoc]
            rfl
          rw [hfun]
      | false =>
          simp only [specGo]
          rw [splitOn_false_eq, List.splitOnP_cons]
          rw [if_pos (by decide : (false == false) = true)]
          have hne : t.splitOnP (fun b => b == false) ≠ [] := List.splitOnP_ne_nil _ t
          obtain ⟨y, ys, hys⟩ := List.exists_cons_of_ne_nil hne
          rw [hys]
          have ih0 := ih 0
          rw [splitOn_false_eq, hys] at ih0
          simp only [List.modifyHead_cons, List.replicate_zero, List.nil_append] at ih0
          simp only [List.modifyHead_cons, List.dropLast_cons₂, List.map_cons, List.filter_cons,
            List.length_append, List.length_replicate, List.length_nil, Nat.add_zero,
            decide_eq_true_eq]
          by_cases hc : 0 < c
          · rw [if_pos hc, if_pos hc, ih0]
          · rw [if_neg hc, if_neg hc, ih0]

theorem dry_spells_eq_completedRuns_flags (l : List ℚ) :
    dry_spells l = completedRuns (dryFlags l) := by
  rw [dry_spells, droughtScan_spells, List.nil_append, completedRuns, specGo_splitOn _ 0]
  have : (dryFlags l).splitOn false ≠ [] := List.splitOnP_ne_nil _ _
  obtain ⟨y, ys, hys⟩ := List.exists_cons_of_ne_nil this
  rw [hys]
  simp

/-- C6: For every nonempty monthly rainfall series, the dry spells recorded by
calculate_drought_risk are exactly the below-threshold runs that are ended by
a non-dry month (a run still in progress at series end is not recorded),
avg_dry_spell is the mean length of the recorded spells (0 when none), and
dry_spell_frequency is (number of recorded spells / number of months) * 12.
The nonemptiness hypothesis reflects that the source raises
ZeroDivisionError on an empty series. -/
theorem drought_risk_records_completed_runs (l : List ℚ) (h : l ≠ []) :
    ∃ r, calculate_drought_risk l = Except.ok r ∧
      dry_spells l = completedRuns (dryFlags l) ∧
      r.avg_dry_spell = (if completedRuns (dryFlags l) = [] then 0
        else ((completedRuns (dryFlags l)).map (fun k => (k : ℚ))).sum /
          (completedRuns (dryFlags l)).length) ∧
      r.dry_spell_frequency = ((completedRuns (dryFlags l)).length : ℚ) / l.length * 12 := by
  have hlen : ¬ l.length = 0 := by simpa [List.length_eq_zero] using h
  refine ⟨_, by rw [calculate_drought_risk, if_neg hlen], dry_spells_eq_completedRuns_flags l,
    ?_, ?_⟩ <;>
    simp [dry_spells_eq_completedRuns_flags]

/-- Concrete instantiation of drought_risk_records_completed_runs at the
series [5, 1, 5] (threshold 11/5, one completed one-month spell). -/
theorem drought_risk_records_completed_runs_witness :
    ∃ r, calculate_drought_risk [5, 1, 5] = Except.ok r ∧
      dry_spells [5, 1, 5] = completedRuns (dryFlags [5, 1, 5]) ∧
      r.avg_dry_spell = (if completedRuns (dryFlags [5, 1, 5]) = [] then 0
        else ((completedRuns (dryFlags [5, 1, 5])).map (fun k => (k : ℚ))).sum /
          (completedRuns (dryFlags [5, 1, 5])).length) ∧
      r.dry_spell_frequency =
        ((completedRuns (dryFlags [5, 1, 5])).length : ℚ) / ([5, 1, 5] : List ℚ).length * 12 :=
  drought_risk_records_completed_runs [5, 1, 5] (by simp)

/-- When every month is below threshold the else branch of the scan never
runs, so max_consecutive and dry_spells keep their incoming values. -/
theorem droughtScan_allTrue (l : List Bool) (h : ∀ b ∈ l, b = true) :
    ∀ (c m : ℕ) (sp : List ℕ), droughtScan l c m sp = (m, sp) := by
  induction l with
  | nil => intro c m sp; rfl
  | cons b t ih =>
      intro c m sp
      have hb : b = true := h b (List.mem_cons_self b t)
      subst hb
      have ht : ∀ x ∈ t, x = true := fun x hx => h x (List.mem_cons_of_mem _ hx)
      simpa [droughtScan] using ih ht (c + 1) m sp

/-- C1 counterexample: the all-below-threshold series [-1, -1, -1, -1]
(threshold -3/5) has length 4, yet calculate_drought_risk reports
max_consecutive_dry = 0, not 4: the trailing in-progress run is excluded
from max_consecutive_dry as well. -/
theorem drought_max_consecutive_allDry_counterexample :
    ((-1 : ℚ) < droughtThreshold [-1, -1, -1, -1]) ∧
    ([-1, -1, -1, -1] : List ℚ).length = 4 ∧
    calculate_drought_risk [-1, -1, -1, -1] = Except.ok ⟨0, 0, 0⟩ := by
  have h : dryFlags [-1, -1, -1, -1] = [true, true, true, true] := by
    norm_num [dryFlags, droughtThreshold]
  have h2 : dry_spells [-1, -1, -1, -1] = [] := by rw [dry_spells, h]; rfl
  have h3 : (droughtScan (dryFlags [-1, -1, -1, -1]) 0 0 []).1 = 0 := by rw [h]; rfl
  refine ⟨by norm_num [droughtThreshold], rfl, ?_⟩
  rw [calculate_drought_risk, if_neg (by simp), h2, h3]
  norm_num

/-- C1 amended: on a series in which every value is strictly below the
drought threshold, calculate_drought_risk returns max_consecutive_dry = 0:
a below-threshold run still in progress at series end is excluded from
max_consecutive_dry exactly as it is excluded from the spell list. -/
theorem drought_max_consecutive_allDry (l : List ℚ) (hne : l ≠ [])
    (h : ∀ x ∈ l, x < droughtThreshold l) :
    ∃ r, calculate_drought_risk l = Except.ok r ∧ r.max_consecutive_dry = 0 := by
  have hflags : ∀ b ∈ dryFlags l, b = true := by
    intro b hb
    obtain ⟨x, hx, rfl⟩ := List.mem_map.mp hb
    simpa using h x hx
  have hscan := droughtScan_allTrue (dryFlags l) hflags 0 0 []
  have hlen : ¬ l.length = 0 := by simpa [List.length_eq_zero] using hne
  exact ⟨_, by rw [calculate_drought_risk, if_neg hlen], by simp [hscan]⟩

/-- Concrete instantiation of drought_max_consecutive_allDry at
[-1, -1, -1, -1]. -/
theorem drought_max_consecutive_allDry_witness :
    ∃ r, calculate_drought_risk [-1, -1, -1, -1] = Except.ok r ∧
      r.max_consecutive_dry = 0 :=
  drought_max_consecutive_allDry [-1, -1, -1, -1] (by simp)
    (by norm_num [droughtThreshold])

/-! ## Insurance analytics: consecutive dry months (src/insurance_utils.py lines 30-46) -/

/-- The loop of max_consecutive_ones (src/insurance_utils.py lines 36-46):
the running maximum is updated while a run grows, so a trailing run counts. -/
def mcoLoop : List Bool → ℕ → ℕ → ℕ
  | [], m, _ => m
  | b :: t, m, c => if b then mcoLoop t (max m (c + 1)) (c + 1) else mcoLoop t m 0

/-- max_consecutive_ones on the 0/1 series (modelled as booleans). -/
def maxConsecutiveOnes (l : List Bool) : ℕ :=
  mcoLoop l 0 0

/-- calculate_consecutive_dry_months (src/insurance_utils.py lines 30-34):
threshold is the series-wide 25th percentile (np.percentile raises on an
empty series), dry means strictly below it. -/
def calculate_consecutive_dry_months (l : List ℚ) : Except PyErr ℕ := do
  let thr ← npPercentile l 25
  pure (maxConsecutiveOnes (l.map (fun x => decide (x < thr))))

/-- The maximum of a list of naturals (0 for an empty list). -/
def maxList (l : List ℕ) : ℕ :=
  l.foldr max 0

/-- Specification-level longest run: split the boolean series at the false
positions; the chunks are the maximal all-true runs (the trailing one
included); the answer is the greatest chunk length. -/
def longestRun (l : List Bool) : ℕ :=
  maxList ((l.splitOn false).map List.length)

/-- Operational twin for the proof: the longest run when a run of length c is
already in progress. -/
def runsMax : ℕ → List Bool → ℕ
  | c, [] => c
  | c, true :: t => runsMax (c + 1) t
  | c, false :: t => max c (runsMax 0 t)

theorem le_runsMax (l : List Bool) : ∀ c : ℕ, c ≤ runsMax c l := by
  induction l with
  | nil => intro c; exact le_rfl
  | cons b t ih =>
      intro c
      cases b with
      | true => exact le_trans (Nat.le_succ c) (ih (c + 1))
      | false => exact le_max_left _ _

theorem mcoLoop_eq_runsMax (l : List Bool) :
    ∀ (m c : ℕ), c ≤ m → mcoLoop l m c = max m (runsMax c l) := by
  induction l with
  | nil => intro m c hcm; simp [mcoLoop, runsMax, Nat.max_eq_left hcm]
  | cons b t ih =>
      intro m c hcm
      cases b with
      | true =>
          rw [mcoLoop, if_pos rfl, runsMax]
          rw [ih (max m (c + 1)) (c + 1) (le_max_right _ _)]
          have h1 : c + 1 ≤ runsMax (c + 1) t := le_runsMax t (c + 1)
          omega
      | false =>
          rw [mcoLoop, if_neg Bool.false_ne_true, runsMax]
          rw [ih m 0 (Nat.zero_le m)]
          omega

theorem runsMax_splitOn (l : List Bool) :
    ∀ c : ℕ,
      runsMax c l =
        maxList (((l.splitOn false).modifyHead (fun s => List.replicate c true ++ s)).map
          List.length) := by
  induction l with
  | nil => intro c; simp [runsMax, splitOn_false_eq, maxList]
  | cons b t ih =>
      intro c
      cases b with
      | true =>
          rw [runsMax, ih (c + 1), splitOn_false_eq, splitOn_false_eq, List.splitOnP_cons]
          rw [if_neg (by decide : ¬ ((true == false) = true))]
          rw [List.modifyHead_modifyHead]
          have hfun : ((fun s => List.replicate c true ++ s) ∘ List.cons true) =
              (fun s => List.replicate (c + 1) true ++ s) := by
            funext s
            simp only [Function.comp]
            rw [List.replicate_succ', List.append_assoc]
            rfl
          rw [hfun]
      | false =>
          rw [runsMax, splitOn_false_eq, List.splitOnP_cons]
          rw [if_pos (by decide : (false == false) = true)]
          have ih0 := ih 0
          rw [splitOn_false_eq] at ih0
          have hne : t.splitOnP (fun b => b == false) ≠ [] := List.splitOnP_ne_nil _ t
          obtain ⟨y, ys, hys⟩ := List.exists_cons_of_ne_nil hne
          rw [hys] at ih0 ⊢
          simp only [List.modifyHead_cons, List.replicate_zero, List.nil_append] at ih0
          simp only [List.modifyHead_cons, List.map_cons, List.length_append,
            List.length_replicate, List.length_nil, Nat.add_zero, maxList, List.foldr_cons]
          rw [ih0]
          rfl

theorem maxConsecutiveOnes_eq_longestRun (l : List Bool) :
    maxConsecutiveOnes l = longestRun l := by
  rw [maxConsecutiveOnes, mcoLoop_eq_runsMax l 0 0 le_rfl, runsMax_splitOn l 0, longestRun]
  have : (l.splitOn false) ≠ [] := List.splitOnP_ne_nil _ _
  obtain ⟨y, ys, hys⟩ := List.exists_cons_of_ne_nil this
  rw [hys]
  simp [Nat.max_eq_right (Nat.zero_le _)]

/-- C7: For every nonempty monthly rainfall series,
calculate_consecutive_dry_months returns the length of the longest run of
consecutive values strictly below the 25th percentile of the series, and a
run still in progress at series end does count toward the maximum.  The
nonemptiness hypothesis reflects that np.percentile raises on empty input. -/
theorem consecutive_dry_months_is_longest_run (l : List ℚ) (h : l ≠ []) :
    calculate_consecutive_dry_months l =
      Except.ok (longestRun (l.map (fun x => decide (x < percentile l 25)))) := by
  have hne : ¬ l.isEmpty := by simpa [List.isEmpty_iff] using h
  rw [calculate_consecutive_dry_months, npPercentile, if_neg hne]
  show Except.ok (maxConsecutiveOnes _) = _
  rw [maxConsecutiveOnes_eq_longestRun]

/-- Concrete instantiation of consecutive_dry_months_is_longest_run at
[1, 2, 3, 4] (25th percentile 7/4, longest dry run 1). -/
theorem consecutive_dry_months_is_longest_run_witness :
    calculate_consecutive_dry_months [1, 2, 3, 4] =
      Except.ok (longestRun (([1, 2, 3, 4] : List ℚ).map
        (fun x => decide (x < percentile [1, 2, 3, 4] 25)))) :=
  consecutive_dry_months_is_longest_run [1, 2, 3, 4] (by simp)

/-! ## Payout claims -/

/-- C5: each position of the payout series carries exactly the tiered payout
of the corresponding observation, with the thresholds looked up from the
trigger entry of that observation's calendar month. -/
theorem simulate_payouts_pointwise (data : List (ℕ × ℚ)) (tl : ℕ → Triggers)
    (ps : PayoutStructure) (i : ℕ) (h : i < data.length)
    (h2 : i < (simulate_payouts data tl ps).length) :
    (simulate_payouts data tl ps).get ⟨i, h2⟩ =
      specPayoutRule (tl (data.get ⟨i, h⟩).1) ps (data.get ⟨i, h⟩).2 := by
  simp only [List.get_eq_getElem, simulate_payouts_eq_map, List.getElem_map]

/-- Example inputs for the payout witnesses: two January observations, flat
triggers 10/20/30/40/50 for every month, payouts 100/50/25. -/
def exRows : List (ℕ × ℚ) := [(1, 5), (1, 50)]

def exTriggers : ℕ → Triggers := fun _ => ⟨10, 20, 30, 40, 50⟩

def exPayoutStructure : PayoutStructure := ⟨100, 50, 25⟩

/-- Concrete instantiation of simulate_payouts_pointwise at index 0 of the
example inputs. -/
theorem simulate_payouts_pointwise_witness :
    (simulate_payouts exRows exTriggers exPayoutStructure).get
        ⟨0, by simp [simulate_payouts, exRows]⟩ =
      specPayoutRule (exTriggers (exRows.get ⟨0, by simp [exRows]⟩).1) exPayoutStructure
        (exRows.get ⟨0, by simp [exRows]⟩).2 :=
  simulate_payouts_pointwise exRows exTriggers exPayoutStructure 0 (by simp [exRows])
    (by simp [simulate_payouts, exRows])

/-- C10: every element of the payout series is 0 or one of the three payout
amounts of the payout structure. -/
theorem simulate_payouts_range (data : List (ℕ × ℚ)) (tl : ℕ → Triggers)
    (ps : PayoutStructure) :
    ∀ x ∈ simulate_payouts data tl ps,
      x = 0 ∨ x = ps.mild ∨ x = ps.moderate ∨ x = ps.severe := by
  intro x hx
  rw [simulate_payouts_eq_map] at hx
  obtain ⟨r, _, rfl⟩ := List.mem_map.mp hx
  rw [specPayoutRule]
  split_ifs
  · exact Or.inr (Or.inr (Or.inr rfl))
  · exact Or.inr (Or.inr (Or.inl rfl))
  · exact Or.inr (Or.inl rfl)
  · exact Or.inl rfl

/-- Concrete instantiation of simulate_payouts_range: the first payout of the
example inputs is 100, which is the severe amount. -/
theorem simulate_payouts_range_witness :
    (100 : ℚ) = 0 ∨ (100 : ℚ) = exPayoutStructure.mild ∨
      (100 : ℚ) = exPayoutStructure.moderate ∨ (100 : ℚ) = exPayoutStructure.severe :=
  simulate_payouts_range exRows exTriggers exPayoutStructure 100
    (by norm_num [simulate_payouts, exRows, exTriggers, exPayoutStructure])

/-! ## Trigger levels on months with no observations -/

theorem mapM_ok_forall {α β : Type} (f : α → Except PyErr β) :
    ∀ (l : List α) (ys : List β), l.mapM f = Except.ok ys → ∀ x ∈ l, ∃ y, f x = Except.ok y := by
  intro l
  induction l with
  | nil => intro ys _ x hx; exact absurd hx (List.not_mem_nil x)
  | cons a t ih =>
      intro ys hok x hx
      rw [List.mapM_cons] at hok
      cases hfa : f a with
      | error e => rw [hfa] at hok; exact Except.noConfusion hok
      | ok y =>
          rw [hfa] at hok
          have hok2 : (t.mapM f >>= fun ys => pure (y :: ys)) = Except.ok ys := hok
          cases hft : t.mapM f with
          | error e => rw [hft] at hok2; exact Except.noConfusion hok2
          | ok zs =>
              rcases List.mem_cons.mp hx with hxa | hxt
              · exact ⟨y, hxa ▸ hfa⟩
              · exact ih zs hft x hxt

theorem mapM_ok_mem {α β : Type} (f : α → Except PyErr β) :
    ∀ (l : List α) (ys : List β), l.mapM f = Except.ok ys →
      ∀ y ∈ ys, ∃ x ∈ l, f x = Except.ok y := by
  intro l
  induction l with
  | nil =>
      intro ys hok y hy
      have : ys = [] := by
        have hok2 : (Except.ok [] : Except PyErr (List β)) = Except.ok ys := hok
        exact (Except.ok.inj hok2).symm
      subst this
      exact absurd hy (List.not_mem_nil y)
  | cons a t ih =>
      intro ys hok y hy
      rw [List.mapM_cons] at hok
      cases hfa : f a with
      | error e => rw [hfa] at hok; exact Except.noConfusion hok
      | ok z =>
          rw [hfa] at hok
          have hok2 : (t.mapM f >>= fun ys => pure (z :: ys)) = Except.ok ys := hok
          cases hft : t.mapM f with
          | error e => rw [hft] at hok2; exact Except.noConfusion hok2
          | ok zs =>
              rw [hft] at hok2
              have hys : z :: zs = ys := Except.ok.inj hok2
              rcases List.mem_cons.mp (hys ▸ hy) with hya | hyt
              · exact ⟨a, List.mem_cons_self a t, hya ▸ hfa⟩
              · obtain ⟨x, hxt, hfx⟩ := ih zs hft y hyt
                exact ⟨x, List.mem_cons_of_mem a hxt, hfx⟩

/-- C2 counterexample: a series whose observations all fall in January.
calculate_trigger_levels does not return a per-month mapping with the empty
months marked undefined; the np.percentile call on February's empty bucket
raises and the whole call fails. -/
theorem trigger_levels_empty_month_counterexample :
    calculate_trigger_levels [(1, 100)] = Except.error PyErr.emptyTake := rfl

/-- C2 amended: whenever some calendar month 1..12 has no observation,
calculate_trigger_levels raises (it propagates numpy's IndexError); no
trigger mapping is returned at all, so the months that do have observations
are not reported either. -/
theorem trigger_levels_empty_month_raises (data : List (ℕ × ℚ)) (m : ℕ)
    (h1 : m ∈ List.range' 1 12) (h2 : monthData data m = []) :
    ∃ e, calculate_trigger_levels data = Except.error e := by
  cases hres : calculate_trigger_levels data with
  | error e => exact ⟨e, rfl⟩
  | ok ts =>
      exfalso
      obtain ⟨y, hy⟩ := mapM_ok_forall _ _ _ hres m h1
      rw [h2] at hy
      have hclosed : (computeTriggers []).map (fun t => (m, t)) =
          (Except.error PyErr.emptyTake : Except PyErr (ℕ × Triggers)) := rfl
      rw [hclosed] at hy
      exact Except.noConfusion hy

/-- Concrete instantiation of trigger_levels_empty_month_raises at the
January-only series, with February as the empty month. -/
theorem trigger_levels_empty_month_raises_witness :
    ∃ e, calculate_trigger_levels [(1, 100)] = Except.error e :=
  trigger_levels_empty_month_raises [(1, 100)] 2 (by decide) rfl

/-! ## Order properties of the linear-interpolation percentile -/

theorem sorted_getD_mono (s : List ℚ) (hs : s.Sorted (· ≤ ·)) {i j : ℕ} (hij : i ≤ j)
    (hj : j < s.length) : s.getD i 0 ≤ s.getD j 0 := by
  have hi : i < s.length := lt_of_le_of_lt hij hj
  rw [List.getD_eq_getElem?_getD, List.getD_eq_getElem?_getD,
    List.getElem?_eq_getElem hi, List.getElem?_eq_getElem hj]
  simp only [Option.getD_some]
  have := hs.rel_get_of_le (a := ⟨i, hi⟩) (b := ⟨j, hj⟩) (Fin.mk_le_mk.mpr hij)
  simpa [List.get_eq_getElem] using this

theorem interpolate_mono (s : List ℚ) (hs : s.Sorted (· ≤ ·)) {h1 h2 : ℚ}
    (h0 : 0 ≤ h1) (h12 : h1 ≤ h2) (hub : h2 ≤ (s.length : ℚ) - 1) :
    interpolate s h1 ≤ interpolate s h2 := by
  have hf1 : 0 ≤ ⌊h1⌋ := Int.le_floor.mpr (by exact_mod_cast h0)
  have hff : ⌊h1⌋ ≤ ⌊h2⌋ := Int.floor_le_floor h12
  have hcc : ⌈h1⌉ ≤ ⌈h2⌉ := Int.ceil_le_ceil h12
  have hub2 : ⌈h2⌉ ≤ (s.length : ℤ) - 1 := by
    apply Int.ceil_le.mpr
    push_cast
    linarith
  have hub1 : ⌈h1⌉ ≤ (s.length : ℤ) - 1 := le_trans hcc hub2
  have hfub1 : ⌊h1⌋ ≤ (s.length : ℤ) - 1 := le_trans (Int.floor_le_ceil h1) hub1
  have hfub2 : ⌊h2⌋ ≤ (s.length : ℤ) - 1 := le_trans (Int.floor_le_ceil h2) hub2
  have hlen : 1 ≤ s.length := by
    have : (0 : ℤ) ≤ (s.length : ℤ) - 1 := le_trans hf1 hfub1
    omega
  have toNat_lt : ∀ k : ℤ, k ≤ (s.length : ℤ) - 1 → k.toNat < s.length := by
    intro k hk
    omega
  have hfr1a : (⌊h1⌋ : ℚ) ≤ h1 := Int.floor_le h1
  have hfr1b : h1 < (⌊h1⌋ : ℚ) + 1 := Int.lt_floor_add_one h1
  have hfr2a : (⌊h2⌋ : ℚ) ≤ h2 := Int.floor_le h2
  have hfr2b : h2 < (⌊h2⌋ : ℚ) + 1 := Int.lt_floor_add_one h2
  have hA1B1 : s.getD (Int.toNat ⌊h1⌋) 0 ≤ s.getD (Int.toNat ⌈h1⌉) 0 :=
    sorted_getD_mono s hs (Int.toNat_le_toNat (Int.floor_le_ceil h1)) (toNat_lt _ hub1)
  have hA2B2 : s.getD (Int.toNat ⌊h2⌋) 0 ≤ s.getD (Int.toNat ⌈h2⌉) 0 :=
    sorted_getD_mono s hs (Int.toNat_le_toNat (Int.floor_le_ceil h2)) (toNat_lt _ hub2)
  rcases eq_or_lt_of_le hff with heq | hlt
  · -- same floor: compare fractional parts against interval slopes
    rw [interpolate, interpolate, heq]
    have hB1B2 : s.getD (Int.toNat ⌈h1⌉) 0 ≤ s.getD (Int.toNat ⌈h2⌉) 0 :=
      sorted_getD_mono s hs (Int.toNat_le_toNat hcc) (toNat_lt _ hub2)
    have hA2B1 : s.getD (Int.toNat ⌊h2⌋) 0 ≤ s.getD (Int.toNat ⌈h1⌉) 0 := by
      rw [← heq]
      exact hA1B1
    have hf12 : h1 - (⌊h2⌋ : ℚ) ≤ h2 - (⌊h2⌋ : ℚ) := by linarith
    have hf1nn : 0 ≤ h1 - (⌊h2⌋ : ℚ) := by
      rw [← heq]
      linarith
    have hmul : (h1 - (⌊h2⌋ : ℚ)) * (s.getD (Int.toNat ⌈h1⌉) 0 - s.getD (Int.toNat ⌊h2⌋) 0) ≤
        (h2 - (⌊h2⌋ : ℚ)) * (s.getD (Int.toNat ⌈h2⌉) 0 - s.getD (Int.toNat ⌊h2⌋) 0) := by
      apply mul_le_mul hf12 (by linarith) (by linarith) (by linarith)
    linarith
  · -- the first ceiling index is at most the second floor index
    have hj1i2 : ⌈h1⌉ ≤ ⌊h2⌋ := le_trans (Int.ceil_le_floor_add_one h1) (by omega)
    have hB1A2 : s.getD (Int.toNat ⌈h1⌉) 0 ≤ s.getD (Int.toNat ⌊h2⌋) 0 :=
      sorted_getD_mono s hs (Int.toNat_le_toNat hj1i2) (toNat_lt _ hfub2)
    rw [interpolate, interpolate]
    nlinarith [hA1B1, hA2B2, hB1A2, hfr1a, hfr1b, hfr2a, hfr2b]

theorem getD_zero_le_interpolate (s : List ℚ) (hs : s.Sorted (· ≤ ·)) {h : ℚ}
    (h0 : 0 ≤ h) (hub : h ≤ (s.length : ℚ) - 1) : s.getD 0 0 ≤ interpolate s h := by
  have hf : 0 ≤ ⌊h⌋ := Int.le_floor.mpr (by exact_mod_cast h0)
  have hub2 : ⌈h⌉ ≤ (s.length : ℤ) - 1 := by
    apply Int.ceil_le.mpr
    push_cast
    linarith
  have hfub : ⌊h⌋ ≤ (s.length : ℤ) - 1 := le_trans (Int.floor_le_ceil h) hub2
  have hlen : 1 ≤ s.length := by
    have : (0 : ℤ) ≤ (s.length : ℤ) - 1 := le_trans hf hfub
    omega
  have hjlt : Int.toNat ⌈h⌉ < s.length := by omega
  have hilt : Int.toNat ⌊h⌋ < s.length := by omega
  have hAB : s.getD (Int.toNat ⌊h⌋) 0 ≤ s.getD (Int.toNat ⌈h⌉) 0 :=
    sorted_getD_mono s hs (Int.toNat_le_toNat (Int.floor_le_ceil h)) hjlt
  have h0A : s.getD 0 0 ≤ s.getD (Int.toNat ⌊h⌋) 0 :=
    sorted_getD_mono s hs (Nat.zero_le _) hilt
  have hfr : (⌊h⌋ : ℚ) ≤ h := Int.floor_le h
  rw [interpolate]
  nlinarith

theorem percentile_mono (l : List ℚ) (hl : l ≠ []) {p q : ℚ} (hp : 0 ≤ p) (hq : q ≤ 100)
    (hpq : p ≤ q) : percentile l p ≤ percentile l q := by
  rw [percentile, percentile]
  have hs : (l.insertionSort (· ≤ ·)).Sorted (· ≤ ·) := List.sorted_insertionSort _ l
  have hslen : (l.insertionSort (· ≤ ·)).length = l.length :=
    (List.perm_insertionSort _ l).length_eq
  have hlpos : 0 < l.length := List.length_pos.mpr hl
  have hone : (1 : ℚ) ≤ (l.length : ℚ) := by exact_mod_cast hlpos
  apply interpolate_mono _ hs
  · exact mul_nonneg (div_nonneg hp (by norm_num)) (by linarith)
  · apply mul_le_mul_of_nonneg_right _ (by linarith)
    linarith
  · rw [hslen]
    have hq1 : q / 100 ≤ 1 := by linarith
    have := mul_le_mul_of_nonneg_right hq1 (by linarith : (0 : ℚ) ≤ (l.length : ℚ) - 1)
    linarith

theorem exists_mem_le_percentile (l : List ℚ) (hl : l ≠ []) {p : ℚ} (hp : 0 ≤ p)
    (hq : p ≤ 100) : ∃ x ∈ l, x ≤ percentile l p := by
  have hs : (l.insertionSort (· ≤ ·)).Sorted (· ≤ ·) := List.sorted_insertionSort _ l
  have hslen : (l.insertionSort (· ≤ ·)).length = l.length :=
    (List.perm_insertionSort _ l).length_eq
  have hlpos : 0 < l.length := List.length_pos.mpr hl
  have hone : (1 : ℚ) ≤ (l.length : ℚ) := by exact_mod_cast hlpos
  have hspos : 0 < (l.insertionSort (· ≤ ·)).length := by omega
  refine ⟨(l.insertionSort (· ≤ ·)).getD 0 0, ?_, ?_⟩
  · have hget : (l.insertionSort (· ≤ ·)).getD 0 0 ∈ l.insertionSort (· ≤ ·) := by
      rw [List.getD_eq_getElem?_getD, List.getElem?_eq_getElem hspos]
      exact List.getElem_mem hspos
    exact (List.perm_insertionSort (· ≤ ·) l).subset hget
  · rw [percentile]
    apply getD_zero_le_interpolate _ hs
    · exact mul_nonneg (div_nonneg hp (by norm_num)) (by linarith)
    · rw [hslen]
      have hq1 : p / 100 ≤ 1 := by linarith
      have := mul_le_mul_of_nonneg_right hq1 (by linarith : (0 : ℚ) ≤ (l.length : ℚ) - 1)
      linarith

/-! ## Insurance analytics: risk metrics (src/insurance_utils.py lines 16-28) -/

theorem except_bind_ok {α β : Type} (a : α) (f : α → Except PyErr β) :
    (Except.ok a >>= f) = f a := rfl

/-- The fields of the calculate_risk_metrics dictionary that the claims read.
The remaining fields (volatility, skewness, kurtosis, drought_frequency,
seasonal_volatility) take square roots or higher-moment powers whose values
are irrational in general; they are not referenced by any claim and are not
carried in the embedding. -/
structure RiskMetrics : Type where
  var_95 : ℚ
  cvar_95 : Option ℚ
  max_consecutive_dry_months : ℕ
  deriving DecidableEq, Repr

/-- calculate_risk_metrics (src/insurance_utils.py lines 16-28), restricted to
the embedded fields: var_95 is the 5th percentile of the series (np.percentile
raises on an empty series), cvar_95 is the pandas mean of the values at most
var_95 (NaN, modelled none, if that subset is empty), and
max_consecutive_dry_months comes from calculate_consecutive_dry_months. -/
def calculate_risk_metrics (l : List ℚ) : Except PyErr RiskMetrics := do
  let v ← npPercentile l 5
  let mcd ← calculate_consecutive_dry_months l
  pure
    { var_95 := v
      cvar_95 := pandasMean (l.filter (fun x => decide (x ≤ v)))
      max_consecutive_dry_months := mcd }

/-- C9: for every nonempty series, cvar_95 is defined (the subset of values at
or below the VaR threshold is nonempty) and is at most var_95. -/
theorem cvar_le_var (l : List ℚ) (h : l ≠ []) :
    ∃ m, calculate_risk_metrics l = Except.ok m ∧
      ∃ c, m.cvar_95 = some c ∧ c ≤ m.var_95 := by
  have hne : ¬ l.isEmpty := by simpa [List.isEmpty_iff] using h
  obtain ⟨x, hxl, hxle⟩ := exists_mem_le_percentile l h (by norm_num) (by norm_num : (5 : ℚ) ≤ 100)
  have e5 : npPercentile l 5 = Except.ok (percentile l 5) := by rw [npPercentile, if_neg hne]
  have e25 : calculate_consecutive_dry_months l =
      Except.ok (maxConsecutiveOnes (l.map (fun y => decide (y < percentile l 25)))) := by
    rw [calculate_consecutive_dry_months, npPercentile, if_neg hne]
    rfl
  have hxL : x ∈ l.filter (fun y => decide (y ≤ percentile l 5)) :=
    List.mem_filter.mpr ⟨hxl, decide_eq_true hxle⟩
  have hLne : l.filter (fun y => decide (y ≤ percentile l 5)) ≠ [] := List.ne_nil_of_mem hxL
  have hLlen : 0 < (l.filter (fun y => decide (y ≤ percentile l 5))).length :=
    List.length_pos.mpr hLne
  have hLlenQ : (0 : ℚ) < ((l.filter (fun y => decide (y ≤ percentile l 5))).length : ℚ) := by
    exact_mod_cast hLlen
  refine ⟨⟨percentile l 5,
      pandasMean (l.filter (fun y => decide (y ≤ percentile l 5))),
      maxConsecutiveOnes (l.map (fun y => decide (y < percentile l 25)))⟩, ?_, ?_⟩
  · rw [calculate_risk_metrics, e5, except_bind_ok, e25, except_bind_ok]
    rfl
  · refine ⟨(l.filter (fun y => decide (y ≤ percentile l 5))).sum /
      ((l.filter (fun y => decide (y ≤ percentile l 5))).length : ℚ), ?_, ?_⟩
    · show pandasMean _ = _
      rw [pandasMean, if_neg (by simpa [List.isEmpty_iff] using hLne)]
    · show _ ≤ percentile l 5
      have hbound : ∀ y ∈ l.filter (fun y => decide (y ≤ percentile l 5)), y ≤ percentile l 5 := by
        intro y hy
        exact of_decide_eq_true (List.mem_filter.mp hy).2
      have hsum := List.sum_le_card_nsmul _ _ hbound
      rw [nsmul_eq_mul] at hsum
      rw [div_le_iff₀ hLlenQ]
      linarith [hsum]

/-- Concrete instantiation of cvar_le_var at the series [1, 2, 3]. -/
theorem cvar_le_var_witness :
    ∃ m, calculate_risk_metrics [1, 2, 3] = Except.ok m ∧
      ∃ c, m.cvar_95 = some c ∧ c ≤ m.var_95 :=
  cvar_le_var [1, 2, 3] (by simp)

/-! ## Percentile monotonicity of the trigger levels -/

theorem computeTriggers_ok (l : List ℚ) (t : Triggers) (h : computeTriggers l = Except.ok t) :
    l ≠ [] ∧ t = ⟨percentile l 10, percentile l 25, percentile l 50,
      percentile l 75, percentile l 90⟩ := by
  by_cases hne : l.isEmpty
  · exfalso
    have hclosed : computeTriggers l = Except.error PyErr.emptyTake := by
      rw [computeTriggers, npPercentile, if_pos hne]
      rfl
    rw [hclosed] at h
    exact Except.noConfusion h
  · have e1 : npPercentile l 10 = Except.ok (percentile l 10) := by rw [npPercentile, if_neg hne]
    have e2 : npPercentile l 25 = Except.ok (percentile l 25) := by rw [npPercentile, if_neg hne]
    have e3 : npPercentile l 50 = Except.ok (percentile l 50) := by rw [npPercentile, if_neg hne]
    have e4 : npPercentile l 75 = Except.ok (percentile l 75) := by rw [npPercentile, if_neg hne]
    have e5 : npPercentile l 90 = Except.ok (percentile l 90) := by rw [npPercentile, if_neg hne]
    rw [computeTriggers, e1, except_bind_ok, e2, except_bind_ok, e3, except_bind_ok,
      e4, except_bind_ok, e5, except_bind_ok] at h
    exact ⟨by simpa [List.isEmpty_iff] using hne, (Except.ok.inj h).symm⟩

/-- C8: whenever calculate_trigger_levels returns a mapping (which requires
every calendar month to have at least one observation), each month's trigger
values satisfy p10 <= p25 <= p50 <= p75 <= p90. -/
theorem trigger_levels_monotone (data : List (ℕ × ℚ)) (ts : List (ℕ × Triggers))
    (h : calculate_trigger_levels data = Except.ok ts) :
    ∀ m t, (m, t) ∈ ts →
      t.p10 ≤ t.p25 ∧ t.p25 ≤ t.p50 ∧ t.p50 ≤ t.p75 ∧ t.p75 ≤ t.p90 := by
  intro m t hmem
  obtain ⟨x, _, hfx⟩ := mapM_ok_mem _ _ _ h (m, t) hmem
  cases hct : computeTriggers (monthData data x) with
  | error e =>
      rw [hct] at hfx
      exact Except.noConfusion hfx
  | ok tr =>
      rw [hct] at hfx
      have hpair : (x, tr) = (m, t) := Except.ok.inj hfx
      have htr : tr = t := (Prod.mk.injEq x tr m t ▸ hpair).2
      obtain ⟨hne, htrv⟩ := computeTriggers_ok _ _ hct
      subst htr
      subst htrv
      refine ⟨?_, ?_, ?_, ?_⟩
      · exact percentile_mono _ hne (by norm_num) (by norm_num) (by norm_num)
      · exact percentile_mono _ hne (by norm_num) (by norm_num) (by norm_num)
      · exact percentile_mono _ hne (by norm_num) (by norm_num) (by norm_num)
      · exact percentile_mono _ hne (by norm_num) (by norm_num) (by norm_num)

/-- One observation of 3 mm in every calendar month, for the trigger witnesses. -/
def ex12 : List (ℕ × ℚ) :=
  [(1, 3), (2, 3), (3, 3), (4, 3), (5, 3), (6, 3), (7, 3), (8, 3), (9, 3), (10, 3), (11, 3),
    (12, 3)]

/-- The mapping calculate_trigger_levels produces on ex12. -/
def exTs : List (ℕ × Triggers) :=
  (List.range' 1 12).map (fun m =>
    (m, ⟨percentile (monthData ex12 m) 10, percentile (monthData ex12 m) 25,
      percentile (monthData ex12 m) 50, percentile (monthData ex12 m) 75,
      percentile (monthData ex12 m) 90⟩))

/-- The January entry of exTs. -/
def exTri : Triggers :=
  ⟨percentile (monthData ex12 1) 10, percentile (monthData ex12 1) 25,
    percentile (monthData ex12 1) 50, percentile (monthData ex12 1) 75,
    percentile (monthData ex12 1) 90⟩

/-- Concrete instantiation of trigger_levels_monotone at ex12 and its January
triggers. -/
theorem trigger_levels_monotone_witness :
    exTri.p10 ≤ exTri.p25 ∧ exTri.p25 ≤ exTri.p50 ∧ exTri.p50 ≤ exTri.p75 ∧
      exTri.p75 ≤ exTri.p90 :=
  trigger_levels_monotone ex12 exTs rfl 1 exTri
    (by
      have hhead : exTs = (1, exTri) :: exTs.tail := rfl
      rw [hhead]
      exact List.mem_cons_self _ _)

/-! ## Frame mutation by the season column (src/rainfall_analysis.py lines
111-126 and src/insurance_utils.py lines 54-59) -/

/-- The season labels used by the fixed 3-month binning. -/
inductive Season : Type
  | Summer : Season
  | Autumn : Season
  | Winter : Season
  | Spring : Season
  deriving DecidableEq, Repr

/-- pd.cut(index.month, bins=[0,3,6,9,12], labels=[Summer,Autumn,Winter,
Spring]): months 1-3 Summer, 4-6 Autumn, 7-9 Winter, 10-12 Spring. -/
def seasonOfMonth (m : ℕ) : Season :=
  if m ≤ 3 then Season.Summer
  else if m ≤ 6 then Season.Autumn
  else if m ≤ 9 then Season.Winter
  else Season.Spring

/-- A monthly rainfall DataFrame: rows of (index.year, index.month,
rainfall_mm) plus the optional season column that the analytics functions
assign in place. -/
structure RainFrame : Type where
  rows : List (ℕ × ℕ × ℚ)
  season : Option (List Season)
  deriving DecidableEq, Repr

/-- The in-place assignment data[season] = pd.cut(data.index.month, ...)
performed by both get_summary_statistics and calculate_seasonal_volatility. -/
def addSeasonColumn (df : RainFrame) : RainFrame :=
  { df with season := some (df.rows.map (fun r => seasonOfMonth r.2.1)) }

/-- groupby(season)[rainfall_mm] for one season label, reading the season
column just assigned (it is derived from the month of each row). -/
def seasonRows (df : RainFrame) (s : Season) : List ℚ :=
  (df.rows.filter (fun r => decide (seasonOfMonth r.2.1 = s))).map (fun r => r.2.2)

/-- The dictionary returned by get_summary_statistics. -/
structure SummaryStats : Type where
  avg_monthly : Option ℚ
  max_monthly : Option ℚ
  min_monthly : Option ℚ
  total_years : ℕ
  seasonal_avg : Season → Option ℚ

/-- get_summary_statistics (src/rainfall_analysis.py lines 111-126): basic
aggregates of the rainfall column, the count of distinct years, then the
in-place season-column assignment followed by the per-season means.  The
function returns the stats dictionary; the mutated frame is returned
explicitly here because Python mutates its argument in place. -/
def get_summary_statistics (df : RainFrame) : SummaryStats × RainFrame :=
  let rains := df.rows.map (fun r => r.2.2)
  let df2 := addSeasonColumn df
  ({ avg_monthly := pandasMean rains
     max_monthly := rains.max?
     min_monthly := rains.min?
     total_years := ((df.rows.map (fun r => r.1)).dedup).length
     seasonal_avg := fun s => pandasMean (seasonRows df2 s) }, df2)

/-- pandas Series.std (ddof = 1) squared, i.e. the sample variance: NaN
(none) on fewer than two values.  The source returns the square root of
this; the root is irrational in general and no claim reads the numeric
value, so the embedding carries the variance. -/
def sampleVar (l : List ℚ) : Option ℚ :=
  if l.length < 2 then none
  else some ((l.map (fun x => (x - l.sum / l.length) ^ 2)).sum / ((l.length : ℚ) - 1))

/-- calculate_seasonal_volatility (src/insurance_utils.py lines 54-59): the
in-place season-column assignment, then the per-season dispersion of the
rainfall column.  As with get_summary_statistics the mutated frame is
returned explicitly. -/
def calculate_seasonal_volatility (df : RainFrame) : (Season → Option ℚ) × RainFrame :=
  let df2 := addSeasonColumn df
  (fun s => sampleVar (seasonRows df2 s), df2)

/-- A one-row January frame with no season column yet. -/
def exFrame : RainFrame := ⟨[(2020, 1, 5)], none⟩

/-- C3 counterexample: both get_summary_statistics and
calculate_seasonal_volatility hand back a frame that differs from the input:
a season column has been added, so the series does not hold exactly the same
columns as before the call. -/
theorem season_mutation_counterexample :
    (calculate_seasonal_volatility exFrame).2 ≠ exFrame ∧
    (get_summary_statistics exFrame).2 ≠ exFrame := by
  constructor
  · intro hEq
    have hs : some [Season.Summer] = (none : Option (List Season)) := by
      calc some [Season.Summer] = (calculate_seasonal_volatility exFrame).2.season := rfl
        _ = exFrame.season := by rw [hEq]
        _ = none := rfl
    exact Option.noConfusion hs
  · intro hEq
    have hs : some [Season.Summer] = (none : Option (List Season)) := by
      calc some [Season.Summer] = (get_summary_statistics exFrame).2.season := rfl
        _ = exFrame.season := by rw [hEq]
        _ = none := rfl
    exact Option.noConfusion hs

/-- C3 amended: the two functions leave the index and the rainfall values
untouched (so repeated calls return identical statistics), but each assigns
a season column to the input frame, derived from the row months. -/
theorem analytics_preserve_values_but_add_season (df : RainFrame) :
    (get_summary_statistics df).2.rows = df.rows ∧
    (get_summary_statistics df).2.season = some (df.rows.map (fun r => seasonOfMonth r.2.1)) ∧
    (calculate_seasonal_volatility df).2.rows = df.rows ∧
    (calculate_seasonal_volatility df).2.season =
      some (df.rows.map (fun r => seasonOfMonth r.2.1)) :=
  ⟨rfl, rfl, rfl, rfl⟩

/-! ## Temperature analytics granularity gate (src/climate_data_analysis.py
lines 156-162) -/

/-- A daily temperature DataFrame: the T2M, T2M_MAX, T2M_MIN and T2MDEW
columns, plus whether index.freq equals the monthly offset (the test
performed by the granularity gate). -/
structure TempFrame : Type where
  freqMonthly : Bool
  t2m : List ℚ
  t2mMax : List ℚ
  t2mMin : List ℚ
  t2mDew : List ℚ
  deriving DecidableEq, Repr

/-- The stats sub-dictionary of analyze_temperature (src/climate_data_analysis.py
lines 167-181).  pandas aggregates of empty columns are NaN, modelled none. -/
structure TempStats : Type where
  mean_temp : Option ℚ
  max_temp_ever : Option ℚ
  min_temp_ever : Option ℚ
  temp_range : Option ℚ
  diurnal_range : Option ℚ
  days_above_30 : ℕ
  days_below_0 : ℕ
  frost_risk_days : ℕ
  avg_day_temp : Option ℚ
  avg_night_temp : Option ℚ
  extreme_hot_days : ℕ
  extreme_cold_nights : ℕ
  deriving DecidableEq, Repr

/-- analyze_temperature (src/climate_data_analysis.py lines 156-358), data
path only: the figures and grouped display tables it also builds are
rendering artifacts not touched by any claim and are not embedded.  The
granularity gate is embedded exactly: is_daily is df.index.freq != the
monthly offset; on monthly input the code calls st.error, but
climate_data_analysis.py never imports streamlit (its imports are requests,
pandas, numpy, matplotlib.pyplot and seaborn), so evaluating the name st
raises NameError before the return None on line 162 can run. -/
def analyze_temperature (df : TempFrame) : Except PyErr (Option TempStats) :=
  let is_daily := !df.freqMonthly
  if is_daily = false then Except.error (PyErr.nameError "st")
  else
    Except.ok (some
      { mean_temp := pandasMean df.t2m
        max_temp_ever := df.t2mMax.max?
        min_temp_ever := df.t2mMin.min?
        temp_range := do
          let a ← df.t2mMax.max?
          let b ← df.t2mMin.min?
          pure (a - b)
        diurnal_range := pandasMean (List.zipWith (fun a b => a - b) df.t2mMax df.t2mMin)
        days_above_30 := (df.t2mMax.filter (fun x => decide (30 < x))).length
        days_below_0 := (df.t2mMin.filter (fun x => decide (x < 0))).length
        frost_risk_days := (df.t2mDew.filter (fun x => decide (x < 0))).length
        avg_day_temp := pandasMean df.t2mMax
        avg_night_temp := pandasMean df.t2mMin
        extreme_hot_days := (df.t2mMax.filter (fun x => decide (35 < x))).length
        extreme_cold_nights := (df.t2mMin.filter (fun x => decide (x < 5))).length })

/-- A monthly-granularity frame fed to analyze_temperature. -/
def exMonthlyFrame : TempFrame := ⟨true, [20], [25], [15], [10]⟩

/-- C4: on monthly-granularity input analyze_temperature does not report a
clean wrong-granularity error and return None; the reference to the
never-imported name st raises NameError. -/
theorem analyze_temperature_monthly_raises :
    analyze_temperature exMonthlyFrame = Except.error (PyErr.nameError "st") := rfl
